import Mathlib

/-!
Verification of the stealth-paint image-pipeline core against its
natural-language specification.

The Rust modules `src/buffer.rs`, `src/pool.rs` and `src/program.rs` are
shallowly embedded below: pure functions become Lean functions, `&mut self`
methods become explicit state-passing functions, Rust `panic!`/`todo!`/
`assert!` failures become a distinguished `panic` outcome, and fallible
methods return `Except`-style results. Machine integers (`u32`, `usize`,
`u64`) are modelled as `Nat`; the only place where overflow matters
(`Descriptor::to_aligned`) checks the 64-bit bound explicitly. Types from
the external `wgpu` crate are never inspected by the embedded code, so they
are modelled by the one-constructor type `ForeignData`.
-/

namespace StealthPaint

/-- Data belonging to the external graphics library (`wgpu` handles,
shader-stage flags, etc.). The embedded code stores but never inspects such
values, so a single-constructor type is a faithful model. -/
inductive ForeignData where
  | mk
deriving DecidableEq, Repr

/-! ## `src/buffer.rs`: layouts, texels and descriptors -/

/-- `BufferLayout` from `src/buffer.rs`: `width : u32`, `height : u32`,
`bytes_per_texel : usize`. -/
structure BufferLayout where
  width : Nat
  height : Nat
  bytes_per_texel : Nat
deriving DecidableEq, Repr

/-- `Block` from `src/buffer.rs`. -/
inductive Block where
  | pixel
  | sub1x2
  | sub1x4
  | sub2x2
  | sub2x4
  | sub4x4
deriving DecidableEq, Repr

/-- `SampleParts` from `src/buffer.rs`. -/
inductive SampleParts where
  | A
  | R
  | G
  | B
  | Rgb
  | Bgr
  | Rgba
  | Rgbx
  | Bgra
  | Bgrx
  | Argb
  | Xrgb
  | Abgr
  | Xbgr
  | Yuv
deriving DecidableEq, Repr

/-- `SampleBits` from `src/buffer.rs`. -/
inductive SampleBits where
  | int8
  | int332
  | int233
  | int4x4
  | inti444
  | int444i
  | int565
  | int8x3
  | int8x4
  | int1010102
  | int2101010
  | int101010i
  | inti101010
  | float16x4
  | float32x4
deriving DecidableEq, Repr

/-- `Samples` from `src/buffer.rs`. -/
structure Samples where
  parts : SampleParts
  bits : SampleBits
deriving DecidableEq, Repr

/-- `ColorChannel` from `src/buffer.rs`. -/
inductive ColorChannel where
  | R
  | G
  | B
deriving DecidableEq, Repr

/-- `Transfer` from `src/buffer.rs`. -/
inductive Transfer where
  | bt709
  | bt470m
  | bt601
  | smpte240
  | linear
  | srgb
  | bt2020_10bit
  | bt2020_12bit
  | smpte2084
  | bt2100pq
  | bt2100hlg
deriving DecidableEq, Repr

/-- `Luminance` from `src/buffer.rs`. -/
inductive Luminance where
  | sdr
  | hdr
deriving DecidableEq, Repr

/-- `Primaries` from `src/buffer.rs`. -/
inductive Primaries where
  | bt601_525
  | bt601_625
  | bt709
  | smpte240
  | bt2020
  | bt2100
deriving DecidableEq, Repr

/-- `Whitepoint` from `src/buffer.rs`. -/
inductive Whitepoint where
  | d65
deriving DecidableEq, Repr

/-- `Color` from `src/buffer.rs`: a single `Xyz` variant. -/
inductive Color where
  | xyz (primary : Primaries) (transfer : Transfer) (whitepoint : Whitepoint)
      (luminance : Luminance)
deriving DecidableEq, Repr

/-- `Texel` from `src/buffer.rs`. -/
structure Texel where
  block : Block
  samples : Samples
  color : Color
deriving DecidableEq, Repr

/-- `Descriptor` from `src/buffer.rs`. -/
structure Descriptor where
  layout : BufferLayout
  texel : Texel
deriving DecidableEq, Repr

/-- `Texel::channel_texel` from `src/buffer.rs` lines 215-244, translated
statement by statement: the three `match` blocks with `return None` modelled
by `Option.bind`. The `block` match of the source lists all six `Block`
variants and keeps `self.block`; its `_ => return None` arm is unreachable. -/
def Texel.channel_texel (t : Texel) (channel : ColorChannel) : Option Texel :=
  let parts? : Option SampleParts :=
    match t.samples.parts with
    | .Rgb | .Rgbx | .Rgba | .Bgrx | .Bgra | .Abgr | .Argb | .Xrgb | .Xbgr =>
      match channel with
      | .R => some .R
      | .G => some .G
      | .B => some .B
    | _ => none
  let bits? : Option SampleBits :=
    match t.samples.bits with
    | .int8 | .int8x3 | .int8x4 => some .int8
    | _ => none
  let block? : Option Block :=
    match t.block with
    | .pixel | .sub1x2 | .sub1x4 | .sub2x2 | .sub2x4 | .sub4x4 => some t.block
  parts?.bind fun parts =>
    bits?.bind fun bits =>
      block?.bind fun block =>
        some { samples := { bits, parts }, block, color := t.color }

/-- The sample-part arrangements from which `channel_texel` extracts a single
channel: exactly the arrangements enumerated in the first `match` of the
source. -/
def extractableArrangement : SampleParts → Bool
  | .Rgb | .Rgbx | .Rgba | .Bgrx | .Bgra | .Abgr | .Argb | .Xrgb | .Xbgr => true
  | _ => false

/-- Sample bits that store each channel in its own (byte-sized) field rather
than packed subword fields: exactly the bits enumerated in the second `match`
of the source. -/
def perChannelBits : SampleBits → Bool
  | .int8 | .int8x3 | .int8x4 => true
  | _ => false

/-- The single-channel sample part for a requested color channel. -/
def soleChannelPart : ColorChannel → SampleParts
  | .R => .R
  | .G => .G
  | .B => .B

/-- Claim C9: `channel_texel(channel)` returns some single-channel texel
exactly when the sample parts contain the requested channel in an extractable
arrangement and the sample bits are per-channel rather than packed subword
fields; the returned texel has `Int8` bits, the requested channel as its sole
part, and the same block and color as the original; otherwise it returns
none. -/
theorem channel_texel_characterization (t : Texel) (c : ColorChannel) :
    t.channel_texel c =
      if extractableArrangement t.samples.parts && perChannelBits t.samples.bits
      then some { block := t.block,
                  samples := { parts := soleChannelPart c, bits := SampleBits.int8 },
                  color := t.color }
      else none := by
  rcases t with ⟨block, ⟨parts, bits⟩, color⟩
  cases parts <;> cases bits <;> cases c <;> cases block <;> rfl

/-! ## `src/program.rs`: the `Low` instruction set

Descriptor payloads are mirrored field by field; fields of external `wgpu`
types (`BindGroupLayoutEntry`, `Operations<Color>`, `ShaderStage`,
`AddressMode`, ...) are modelled as `ForeignData` because the embedded code
stores them without inspection. -/

/-- `BindingResource` from `src/program.rs`. -/
inductive BindingResource where
  | buffer (buffer_idx : Nat) (offset : Nat) (size : Option Nat)
  | sampler (idx : Nat)
  | textureView (idx : Nat)
deriving DecidableEq, Repr

/-- `BindGroupDescriptor` from `src/program.rs`. -/
structure BindGroupDescriptor where
  layout_idx : Nat
  entries : List BindingResource
deriving DecidableEq, Repr

/-- `BindGroupLayoutDescriptor` from `src/program.rs`; the entries are
`wgpu::BindGroupLayoutEntry` values. -/
structure BindGroupLayoutDescriptor where
  entries : List ForeignData
deriving DecidableEq, Repr

/-- `ColorAttachmentDescriptor` from `src/program.rs`; `ops` is a
`wgpu::Operations<wgpu::Color>`. -/
structure ColorAttachmentDescriptor where
  texture_view : Nat
  ops : ForeignData
deriving DecidableEq, Repr

/-- `DepthStencilDescriptor` from `src/program.rs`. -/
structure DepthStencilDescriptor where
  texture_view : Nat
  depth_ops : Option ForeignData
  stencil_ops : Option ForeignData
deriving DecidableEq, Repr

/-- `RenderPassDescriptor` from `src/program.rs`. -/
structure RenderPassDescriptor where
  color_attachments : List ColorAttachmentDescriptor
  depth_stencil : Option DepthStencilDescriptor
deriving DecidableEq, Repr

/-- `VertexState` from `src/program.rs`. -/
structure VertexState where
  vertex_module : Nat
  entry_point : String
deriving DecidableEq, Repr

/-- `PrimitiveState` from `src/program.rs`. -/
inductive PrimitiveState where
  | soleQuad
deriving DecidableEq, Repr

/-- `FragmentState` from `src/program.rs`; targets are
`wgpu::ColorTargetState` values. -/
structure FragmentState where
  fragment_module : Nat
  entry_point : String
  targets : List ForeignData
deriving DecidableEq, Repr

/-- `RenderPipelineDescriptor` from `src/program.rs`. -/
structure RenderPipelineDescriptor where
  layout : Nat
  vertex : VertexState
  primitive : PrimitiveState
  fragment : FragmentState
deriving DecidableEq, Repr

/-- `PipelineLayoutDescriptor` from `src/program.rs`; the push-constant
ranges are `wgpu::PushConstantRange` values. -/
structure PipelineLayoutDescriptor where
  bind_group_layouts : List Nat
  push_constant_ranges : List ForeignData
deriving DecidableEq, Repr

/-- `BufferUsage` from `src/program.rs`. -/
inductive BufferUsage where
  | inVertices
  | dataIn
  | dataOut
  | dataInOut
  | uniform
deriving DecidableEq, Repr

/-- `BufferDescriptor` from `src/program.rs`; `size : wgpu::BufferAddress`. -/
structure BufferDescriptor where
  size : Nat
  usage : BufferUsage
deriving DecidableEq, Repr

/-- `BufferDescriptorInit` from `src/program.rs`; the content bytes. -/
structure BufferDescriptorInit where
  content : List Nat
  usage : BufferUsage
deriving DecidableEq, Repr

/-- `ShaderDescriptor` from `src/program.rs`; `flags : wgpu::ShaderFlags`,
`source_spirv : Cow<[u32]>`. -/
structure ShaderDescriptor where
  name : String
  source_spirv : List Nat
  flags : ForeignData
deriving DecidableEq, Repr

/-- `TextureUsage` from `src/program.rs`. -/
inductive TextureUsage where
  | dataIn
  | dataOut
  | storage
deriving DecidableEq, Repr

/-- `TextureDescriptor` from `src/program.rs`; `format` is a
`wgpu::TextureFormat`. -/
structure TextureDescriptor where
  size : Nat × Nat
  format : ForeignData
  usage : TextureUsage
deriving DecidableEq, Repr

/-- `TextureViewDescriptor` from `src/program.rs`. -/
structure TextureViewDescriptor where
  texture : Nat
deriving DecidableEq, Repr

/-- `SamplerDescriptor` from `src/program.rs`. -/
structure SamplerDescriptor where
  address_mode : ForeignData
  resize_filter : ForeignData
  border_color : Option ForeignData
deriving DecidableEq, Repr

/-- `PoolKey` from `src/pool.rs`: a slot-map key, modelled by its index. -/
structure PoolKey where
  key : Nat
deriving DecidableEq, Repr

/-- The `Low` instruction enum from `src/program.rs` lines 190-282, one
constructor per variant. -/
inductive Low where
  | bindGroupLayout (d : BindGroupLayoutDescriptor)
  | bindGroup (d : BindGroupDescriptor)
  | buffer (d : BufferDescriptor)
  | bufferInit (d : BufferDescriptorInit)
  | pipelineLayout (d : PipelineLayoutDescriptor)
  | sampler (d : SamplerDescriptor)
  | shader (d : ShaderDescriptor)
  | texture (d : TextureDescriptor)
  | textureView (d : TextureViewDescriptor)
  | renderPipeline (d : RenderPipelineDescriptor)
  | beginCommands
  | beginRenderPass (d : RenderPassDescriptor)
  | endCommands
  | endRenderPass
  | setPipeline (pipeline : Nat)
  | setBindGroup (group : Nat) (index : Nat) (offsets : List Nat)
  | setVertexBuffer (slot : Nat) (buffer : Nat)
  | drawOnce (vertices : Nat)
  | drawIndexedZero (vertices : Nat)
  | setPushConstants (stages : ForeignData) (offset : Nat) (data : List Nat)
  | runTopCommand
  | runTopToBot (n : Nat)
  | runBotToTop (n : Nat)
  | writeImageToBuffer (source_image : PoolKey) (offset : Nat × Nat)
      (size : Nat × Nat) (target_buffer : Nat) (target_layout : BufferLayout)
  | writeImageToTexture (source_image : PoolKey) (offset : Nat × Nat)
      (size : Nat × Nat) (target_texture : Nat)
  | readBuffer (source_buffer : Nat) (source_layout : BufferLayout)
      (offset : Nat × Nat) (size : Nat × Nat) (target_image : Nat)
deriving DecidableEq, Repr

/-- `LaunchError` from `src/program.rs`: a field-less struct. -/
structure LaunchError where
deriving DecidableEq, Repr

/-- `VertexShader` cache key from `src/program.rs`. -/
inductive VertexShader where
  | noop
deriving DecidableEq, Repr

/-- `PaintOnTopKind` from `src/program.rs`. -/
inductive PaintOnTopKind where
  | copy
deriving DecidableEq, Repr

/-- `FragmentShader` cache key from `src/program.rs`. -/
inductive FragmentShader where
  | paintOnTop (kind : PaintOnTopKind)
deriving DecidableEq, Repr

/-! ## `src/program.rs`: the encoder state machine -/

/-- The state of `Encoder<Vec<Low>>` from `src/program.rs` lines 85-124:
the emitted instruction list, the per-resource counters, the validation
flags, and the lazily-filled shader caches. The planner fields
(`buffer_plan`, `pool_plan`, `register_map`, `texture_map`, `buffer_map`,
`staging_map`) and the lazy paint-layout/quad caches are carried by the
Rust struct but are not read by any method embedded here, so they are
omitted from the state. The `HashMap` shader caches are modelled by
association lists. -/
structure EncoderState where
  instructions : List Low
  bind_groups : Nat
  bind_group_layouts : Nat
  buffers : Nat
  command_buffers : Nat
  modules : Nat
  pipeline_layouts : Nat
  render_pipelines : Nat
  sampler : Nat
  shaders : Nat
  textures : Nat
  texture_views : Nat
  is_in_command_encoder : Bool
  is_in_render_pass : Bool
  commands : Nat
  fragment_shaders : List (FragmentShader × Nat)
  vertex_shaders : List (VertexShader × Nat)
deriving DecidableEq, Repr

/-- `Encoder::default()`: all counters zero, flags cleared, caches empty. -/
def EncoderState.default : EncoderState where
  instructions := []
  bind_groups := 0
  bind_group_layouts := 0
  buffers := 0
  command_buffers := 0
  modules := 0
  pipeline_layouts := 0
  render_pipelines := 0
  sampler := 0
  shaders := 0
  textures := 0
  texture_views := 0
  is_in_command_encoder := false
  is_in_render_pass := false
  commands := 0
  fragment_shaders := []
  vertex_shaders := []

/-- `self.instructions.extend_one(low)`. -/
def EncoderState.extendOne (s : EncoderState) (low : Low) : EncoderState :=
  { s with instructions := s.instructions ++ [low] }

/-- Outcome of a fallible, possibly-panicking `&mut self` method: `ok`
carries the state after mutation, `err` carries the state at the `return
Err` site (the Rust `LaunchError` is field-less), `panic` marks a
`todo!()`/`assert!`/`unreachable!` abort. -/
inductive PushResult where
  | ok (s : EncoderState)
  | err (s : EncoderState)
  | panic
deriving DecidableEq, Repr

/-- The `match` inside `Encoder::push` (`src/program.rs` lines 719-795):
counter updates and validation, before the final `extend_one`. Every
`return Err(...)` in the source occurs before any mutation in its arm, so
each `err` carries the unchanged input state. `Low::SetPipeline` is
`todo!()` in the source and panics. -/
def EncoderState.pushChecked (s : EncoderState) (low : Low) : PushResult :=
  match low with
  | .bindGroupLayout _ => .ok { s with bind_group_layouts := s.bind_group_layouts + 1 }
  | .bindGroup _ => .ok { s with bind_groups := s.bind_groups + 1 }
  | .buffer _ | .bufferInit _ => .ok { s with buffers := s.buffers + 1 }
  | .pipelineLayout _ => .ok { s with pipeline_layouts := s.pipeline_layouts + 1 }
  | .sampler _ => .ok { s with sampler := s.sampler + 1 }
  | .shader _ => .ok { s with shaders := s.shaders + 1 }
  | .texture _ => .ok { s with textures := s.textures + 1 }
  | .textureView _ => .ok { s with texture_views := s.texture_views + 1 }
  | .renderPipeline _ => .ok { s with render_pipelines := s.render_pipelines + 1 }
  | .beginCommands =>
    if s.is_in_command_encoder then .err s
    else .ok { s with is_in_command_encoder := true }
  | .beginRenderPass _ =>
    if s.is_in_render_pass then .err s
    else if !s.is_in_command_encoder then .err s
    else .ok { s with is_in_render_pass := true }
  | .endCommands =>
    if !s.is_in_command_encoder then .err s
    else .ok { s with is_in_command_encoder := false, commands := s.commands + 1 }
  | .endRenderPass =>
    if !s.is_in_render_pass then .err s
    else .ok { s with is_in_render_pass := false }
  | .setPipeline _ => .panic
  | .setBindGroup group _ _ =>
    if group ≥ s.bind_groups then .err s else .ok s
  | .setVertexBuffer _ buffer =>
    if buffer ≥ s.buffers then .err s else .ok s
  | .drawOnce _ | .drawIndexedZero _ | .setPushConstants _ _ _ => .ok s
  | .runTopCommand =>
    if s.commands = 0 then .err s
    else .ok { s with commands := s.commands - 1 }
  | .runBotToTop num | .runTopToBot num =>
    if num ≥ s.commands then .err s
    else .ok { s with commands := s.commands - num }
  | .writeImageToBuffer _ _ _ _ _ | .writeImageToTexture _ _ _ _
  | .readBuffer _ _ _ _ _ => .ok s

/-- `Encoder::push` from `src/program.rs` lines 718-799: validate and
update the tracked state, then append the instruction. -/
def EncoderState.push (s : EncoderState) (low : Low) : PushResult :=
  match s.pushChecked low with
  | .ok s₁ => .ok (s₁.extendOne low)
  | .err s₁ => .err s₁
  | .panic => .panic

/-- The instruction stream of a successful push outcome, if any. -/
def PushResult.okInstructions : PushResult → Option (List Low)
  | .ok s => some s.instructions
  | _ => none

/-- Claim C1 (amended): for every `Low` instruction other than
`SetPipeline` — whose arm in `Encoder::push` is an unimplemented `todo!()`
that panics — and every encoder state, `push` either appends exactly that
one instruction to the stream and returns `Ok`, or returns a `LaunchError`
leaving the entire encoder state (in particular the instruction stream)
unchanged. -/
theorem push_appends_one_or_rejects (low : Low) (s : EncoderState)
    (h : ∀ n, low ≠ Low.setPipeline n) :
    (s.push low).okInstructions = some (s.instructions ++ [low]) ∨
      s.push low = .err s := by
  cases low with
  | setPipeline n => exact absurd rfl (h n)
  | beginCommands =>
    by_cases hc : s.is_in_command_encoder <;>
      simp [EncoderState.push, EncoderState.pushChecked, EncoderState.extendOne,
        PushResult.okInstructions, hc]
  | beginRenderPass d =>
    by_cases h1 : s.is_in_render_pass <;> by_cases h2 : s.is_in_command_encoder <;>
      simp [EncoderState.push, EncoderState.pushChecked, EncoderState.extendOne,
        PushResult.okInstructions, h1, h2]
  | endCommands =>
    by_cases hc : s.is_in_command_encoder <;>
      simp [EncoderState.push, EncoderState.pushChecked, EncoderState.extendOne,
        PushResult.okInstructions, hc]
  | endRenderPass =>
    by_cases hc : s.is_in_render_pass <;>
      simp [EncoderState.push, EncoderState.pushChecked, EncoderState.extendOne,
        PushResult.okInstructions, hc]
  | setBindGroup g i o =>
    by_cases hc : g ≥ s.bind_groups <;>
      simp [EncoderState.push, EncoderState.pushChecked, EncoderState.extendOne,
        PushResult.okInstructions, hc]
  | setVertexBuffer sl b =>
    by_cases hc : b ≥ s.buffers <;>
      simp [EncoderState.push, EncoderState.pushChecked, EncoderState.extendOne,
        PushResult.okInstructions, hc]
  | runTopCommand =>
    by_cases hc : s.commands = 0 <;>
      simp [EncoderState.push, EncoderState.pushChecked, EncoderState.extendOne,
        PushResult.okInstructions, hc]
  | runTopToBot n =>
    by_cases hc : n ≥ s.commands <;>
      simp [EncoderState.push, EncoderState.pushChecked, EncoderState.extendOne,
        PushResult.okInstructions, hc]
  | runBotToTop n =>
    by_cases hc : n ≥ s.commands <;>
      simp [EncoderState.push, EncoderState.pushChecked, EncoderState.extendOne,
        PushResult.okInstructions, hc]
  | bindGroupLayout d => left; rfl
  | bindGroup d => left; rfl
  | buffer d => left; rfl
  | bufferInit d => left; rfl
  | pipelineLayout d => left; rfl
  | sampler d => left; rfl
  | shader d => left; rfl
  | texture d => left; rfl
  | textureView d => left; rfl
  | renderPipeline d => left; rfl
  | drawOnce v => left; rfl
  | drawIndexedZero v => left; rfl
  | setPushConstants st off da => left; rfl
  | writeImageToBuffer a b c d e => left; rfl
  | writeImageToTexture a b c d => left; rfl
  | readBuffer a b c d e => left; rfl

/-- Witness for C1's theorem at the concrete instruction `BeginCommands`
and the default encoder state. -/
theorem push_appends_one_or_rejects_witness :
    (EncoderState.default.push Low.beginCommands).okInstructions =
        some (EncoderState.default.instructions ++ [Low.beginCommands]) ∨
      EncoderState.default.push Low.beginCommands = .err EncoderState.default :=
  push_appends_one_or_rejects Low.beginCommands EncoderState.default
    (fun _ h => Low.noConfusion h)

/-- Counterexample to C1 as stated: `push(SetPipeline(0))` on the default
encoder state hits the `todo!()` arm and panics — it neither appends the
instruction and returns `Ok`, nor returns a `LaunchError`. -/
theorem push_setPipeline_panics :
    EncoderState.default.push (Low.setPipeline 0) = .panic := rfl

/-- Claim C3 (code bug): for `commands = 1`, `push(RunTopToBot(1))` and
`push(RunBotToTop(1))` are rejected by the check `num >= self.commands`
although one completed command buffer is available — while the equivalent
`push(RunTopCommand)` on the same state succeeds and consumes it. The spec
requires success whenever `n ≤ commands`. -/
theorem push_runToBot_rejects_exact_count :
    ({ EncoderState.default with commands := 1 } : EncoderState).push
        (Low.runTopToBot 1) =
      .err { EncoderState.default with commands := 1 } ∧
    ({ EncoderState.default with commands := 1 } : EncoderState).push
        (Low.runBotToTop 1) =
      .err { EncoderState.default with commands := 1 } ∧
    ({ EncoderState.default with commands := 1 } : EncoderState).push
        Low.runTopCommand =
      .ok { EncoderState.default with
          commands := 0,
            instructions := [Low.runTopCommand] } :=
  ⟨rfl, rfl, rfl⟩

/-- Claim C4 (amended): `push(EndCommands)` fails if and only if the
encoder is not currently inside a command encoder — the render-pass flag is
not checked — and on success it clears the command-encoder flag, increments
the completed-command count by one, and appends the instruction. -/
theorem push_endCommands_spec (s : EncoderState) :
    (s.is_in_command_encoder = false → s.push Low.endCommands = .err s) ∧
    (s.is_in_command_encoder = true →
      s.push Low.endCommands =
        .ok (({ s with
            is_in_command_encoder := false,
                commands := s.commands + 1 } : EncoderState).extendOne
          Low.endCommands)) := by
  constructor
  · intro h
    simp [EncoderState.push, EncoderState.pushChecked, h]
  · intro h
    simp [EncoderState.push, EncoderState.pushChecked, h]

/-- Witness for C4's amended theorem at a concrete state inside a command
encoder. -/
theorem push_endCommands_spec_witness :
    ({ EncoderState.default with is_in_command_encoder := true } :
        EncoderState).push Low.endCommands =
      .ok (({ EncoderState.default with
          is_in_command_encoder := false,
              commands := 0 + 1 } : EncoderState).extendOne Low.endCommands) :=
  (push_endCommands_spec
    { EncoderState.default with is_in_command_encoder := true }).2 rfl

/-- Counterexample to C4 as stated: starting from the default state,
`BeginCommands` then `BeginRenderPass` reach a state that is inside a
render pass, and there `push(EndCommands)` succeeds — the claim says it
must fail whenever the encoder is inside a render pass. -/
theorem push_endCommands_inside_render_pass :
    EncoderState.default.push Low.beginCommands =
      .ok { EncoderState.default with
          is_in_command_encoder := true,
            instructions := [Low.beginCommands] } ∧
    ({ EncoderState.default with
        is_in_command_encoder := true,
        instructions := [Low.beginCommands] } : EncoderState).push
        (Low.beginRenderPass { color_attachments := [], depth_stencil := none }) =
      .ok { EncoderState.default with
          is_in_command_encoder := true,
            is_in_render_pass := true,
            instructions := [Low.beginCommands,
              Low.beginRenderPass { color_attachments := [], depth_stencil := none }] } ∧
    ({ EncoderState.default with
        is_in_command_encoder := true,
        is_in_render_pass := true,
        instructions := [Low.beginCommands,
          Low.beginRenderPass { color_attachments := [], depth_stencil := none }] } :
        EncoderState).push Low.endCommands =
      .ok { EncoderState.default with
          is_in_command_encoder := false,
            is_in_render_pass := true,
            commands := 1,
            instructions := [Low.beginCommands,
              Low.beginRenderPass { color_attachments := [], depth_stencil := none },
              Low.endCommands] } :=
  ⟨rfl, rfl, rfl⟩

/-! ## Association-list model of `HashMap` / `SlotMap` lookups -/

/-- `HashMap::get` / `SlotMap::get`: the value bound to the first matching
key, if any. -/
def lookupAssoc {α β : Type} [DecidableEq α] : List (α × β) → α → Option β
  | [], _ => none
  | (k', v) :: rest, k => if k' = k then some v else lookupAssoc rest k

/-- `HashMap::insert` / writing through `SlotMap::get_mut`: overwrite the
binding of the key, or append a new one. -/
def insertAssoc {α β : Type} [DecidableEq α] :
    List (α × β) → α → β → List (α × β)
  | [], k, v => [(k, v)]
  | (k', v') :: rest, k, v =>
    if k' = k then (k, v) :: rest else (k', v') :: insertAssoc rest k v

/-- Overwriting a key with the value it already holds changes nothing. -/
theorem insertAssoc_self {α β : Type} [DecidableEq α]
    (l : List (α × β)) (k : α) (v : β) (h : lookupAssoc l k = some v) :
    insertAssoc l k v = l := by
  induction l with
  | nil => simp [lookupAssoc] at h
  | cons hd tl ih =>
    obtain ⟨k', v'⟩ := hd
    by_cases hk : k' = k
    · subst hk
      simp [lookupAssoc] at h
      simp [insertAssoc, h]
    · simp [lookupAssoc, hk] at h
      simp [insertAssoc, hk, ih h]

/-! ## `src/program.rs`: the image-buffer planner -/

/-- `ImageBufferAssignment` from `src/program.rs`: the `Texture(usize)` and
`Buffer(usize)` newtype indices are modelled as `Nat`. -/
structure ImageBufferAssignment where
  texture : Nat
  buffer : Nat
deriving DecidableEq, Repr

/-- `ImageBufferPlan` from `src/program.rs` lines 57-62; the
`HashMap<BufferLayout, Texture>` is an association list. -/
structure ImageBufferPlan where
  texture : List Descriptor
  buffer : List BufferLayout
  by_register : List ImageBufferAssignment
  by_layout : List (BufferLayout × Nat)
deriving DecidableEq, Repr

/-- `ImageBufferPlan::default()`: all four collections empty. -/
def ImageBufferPlan.default : ImageBufferPlan where
  texture := []
  buffer := []
  by_register := []
  by_layout := []

/-- `ImageBufferPlan::allocate_for` from `src/program.rs` lines 469-485.
The liveness range parameter of the source is ignored there (`_: Range`),
so it is omitted. Always pushes a fresh texture and buffer, records the
layout-to-texture mapping, and appends the assignment for the next
register. -/
def ImageBufferPlan.allocate_for (p : ImageBufferPlan) (desc : Descriptor) :
    ImageBufferAssignment × ImageBufferPlan :=
  let texture := p.texture.length
  let textureList := p.texture ++ [desc]
  let buffer := p.buffer.length
  let bufferList := p.buffer ++ [desc.layout]
  let by_layout := insertAssoc p.by_layout desc.layout texture
  let assigned : ImageBufferAssignment := { texture, buffer }
  (assigned,
    { texture := textureList, buffer := bufferList,
      by_register := p.by_register ++ [assigned], by_layout })

/-- `ImageBufferPlan::get` from `src/program.rs` lines 487-493. -/
def ImageBufferPlan.get (p : ImageBufferPlan) (idx : Nat) :
    Except LaunchError ImageBufferAssignment :=
  match p.by_register[idx]? with
  | none => .error {}
  | some a => .ok a

/-- A sequence of `allocate_for` calls, one per descriptor. -/
def runAllocations (p : ImageBufferPlan) : List Descriptor → ImageBufferPlan
  | [] => p
  | d :: ds => runAllocations (p.allocate_for d).2 ds

/-- The planner invariant: after `n` allocations from the empty plan, the
texture, buffer and register vectors all have length `n` and register `i`
is assigned texture `i` and buffer `i`. -/
def PlanInv (p : ImageBufferPlan) (n : Nat) : Prop :=
  p.texture.length = n ∧ p.buffer.length = n ∧ p.by_register.length = n ∧
    ∀ i, i < n → p.by_register[i]? = some ⟨i, i⟩

theorem planInv_allocate (p : ImageBufferPlan) (n : Nat) (d : Descriptor)
    (h : PlanInv p n) : PlanInv (p.allocate_for d).2 (n + 1) := by
  obtain ⟨hT, hB, hR, hget⟩ := h
  refine ⟨?_, ?_, ?_, ?_⟩
  · simp [ImageBufferPlan.allocate_for, hT]
  · simp [ImageBufferPlan.allocate_for, hB]
  · simp [ImageBufferPlan.allocate_for, hR]
  · intro i hi
    simp only [ImageBufferPlan.allocate_for]
    rcases Nat.lt_or_ge i n with hlt | hge
    · rw [List.getElem?_append_left (by rw [hR]; exact hlt)]
      exact hget i hlt
    · have hie : i = n := Nat.le_antisymm (Nat.lt_succ_iff.mp hi) hge
      subst hie
      rw [← hR, List.getElem?_concat_length, hT, hB, hR]

theorem planInv_runAllocations (descs : List Descriptor) :
    ∀ (p : ImageBufferPlan) (n : Nat), PlanInv p n →
      PlanInv (runAllocations p descs) (n + descs.length) := by
  induction descs with
  | nil => intro p n h; simpa [runAllocations] using h
  | cons d ds ih =>
    intro p n h
    have h1 := planInv_allocate p n d h
    have h2 := ih (p.allocate_for d).2 (n + 1) h1
    simpa [runAllocations, Nat.add_assoc, Nat.add_comm 1 ds.length] using h2

/-- Claim C2: for every sequence of `allocate_for` calls starting from the
default plan, the `i`-th allocated register is assigned texture index `i`
(and buffer index `i`); hence the texture index of every register is
distinct from that of every other register; and `get r` returns that
assignment for every allocated register and a `LaunchError` for any
register not yet allocated. -/
theorem allocate_for_fresh_texture_per_register (descs : List Descriptor) :
    (∀ i, (runAllocations ImageBufferPlan.default descs).get i =
      if i < descs.length then Except.ok ⟨i, i⟩ else Except.error {}) ∧
    (∀ i j, i < descs.length → j < descs.length → i ≠ j →
      ((runAllocations ImageBufferPlan.default descs).get i).toOption.map
          ImageBufferAssignment.texture ≠
        ((runAllocations ImageBufferPlan.default descs).get j).toOption.map
          ImageBufferAssignment.texture) := by
  have hinv : PlanInv (runAllocations ImageBufferPlan.default descs)
      descs.length := by
    have h0 : PlanInv ImageBufferPlan.default 0 := by
      refine ⟨rfl, rfl, rfl, ?_⟩
      intro i hi
      exact absurd hi (Nat.not_lt_zero i)
    simpa using planInv_runAllocations descs ImageBufferPlan.default 0 h0
  obtain ⟨hT, hB, hR, hget⟩ := hinv
  have hmain : ∀ i, (runAllocations ImageBufferPlan.default descs).get i =
      if i < descs.length then Except.ok ⟨i, i⟩ else Except.error {} := by
    intro i
    by_cases hi : i < descs.length
    · simp [ImageBufferPlan.get, hget i hi, hi]
    · have : (runAllocations ImageBufferPlan.default descs).by_register[i]?
          = none := by
        apply List.getElem?_len_le
        rw [hR]
        exact Nat.le_of_not_lt hi
      simp [ImageBufferPlan.get, this, hi]
  refine ⟨hmain, ?_⟩
  intro i j hi hj hne
  rw [hmain i, hmain j]
  simp [hi, hj, Except.toOption]
  exact hne

/-- A concrete 2-by-2 RGBA8 sRGB descriptor, used as input for witnesses. -/
def sampleDescriptor : Descriptor where
  layout := { width := 2, height := 2, bytes_per_texel := 4 }
  texel := { block := .pixel,
             samples := { parts := .Rgba, bits := .int8x4 },
             color := .xyz .bt709 .srgb .d65 .sdr }

/-- Witness for C2's theorem on a concrete two-descriptor sequence (both
with the same descriptor, so buffer layouts coincide while texture indices
still must not). -/
theorem allocate_for_fresh_texture_per_register_witness :
    ((runAllocations ImageBufferPlan.default
        [sampleDescriptor, sampleDescriptor]).get 0 = Except.ok ⟨0, 0⟩) ∧
    ((runAllocations ImageBufferPlan.default
        [sampleDescriptor, sampleDescriptor]).get 2 = Except.error {}) ∧
    ((runAllocations ImageBufferPlan.default
        [sampleDescriptor, sampleDescriptor]).get 0).toOption.map
        ImageBufferAssignment.texture ≠
      ((runAllocations ImageBufferPlan.default
        [sampleDescriptor, sampleDescriptor]).get 1).toOption.map
        ImageBufferAssignment.texture := by
  refine ⟨?_, ?_, ?_⟩
  · have h := (allocate_for_fresh_texture_per_register
      [sampleDescriptor, sampleDescriptor]).1 0
    simpa using h
  · have h := (allocate_for_fresh_texture_per_register
      [sampleDescriptor, sampleDescriptor]).1 2
    simpa using h
  · exact (allocate_for_fresh_texture_per_register
      [sampleDescriptor, sampleDescriptor]).2 0 1
      (by decide) (by decide) (by decide)

/-! ## `src/program.rs`: the encoder shader cache -/

/-- `Encoder::shader` from `src/program.rs` lines 991-1000: fails unless
inside a command encoder, else appends `Low::Shader` directly to the
instruction stream (bypassing `push`) and returns the pre-increment shader
index. -/
def EncoderState.shaderMethod (s : EncoderState) (desc : ShaderDescriptor) :
    Except LaunchError Nat × EncoderState :=
  if !s.is_in_command_encoder then (.error {}, s)
  else (.ok s.shaders,
    { s with instructions := s.instructions ++ [Low.shader desc],
             shaders := s.shaders + 1 })

/-- `Encoder::fragment_shader` from `src/program.rs` lines 1002-1017:
return the cached index for the key if present, else emit the shader. The
source never inserts into `fragment_shaders` (its `shader_idx` local is
unused), so the cache can only ever hit if it was already populated. -/
def EncoderState.fragment_shader (s : EncoderState)
    (kind : Option FragmentShader) (source : List Nat) :
    Except LaunchError Nat × EncoderState :=
  match kind.bind (fun k => lookupAssoc s.fragment_shaders k) with
  | some shader => (.ok shader, s)
  | none =>
    s.shaderMethod { name := "", flags := .mk, source_spirv := source }

/-- `Encoder::vertex_shader` from `src/program.rs` lines 1019-1031: same
shape as `fragment_shader`, keyed on `vertex_shaders`. -/
def EncoderState.vertex_shader (s : EncoderState)
    (kind : Option VertexShader) (source : List Nat) :
    Except LaunchError Nat × EncoderState :=
  match kind.bind (fun k => lookupAssoc s.vertex_shaders k) with
  | some shader => (.ok shader, s)
  | none =>
    s.shaderMethod { name := "", flags := .mk, source_spirv := source }

/-- Claim C8 (code bug): calling `fragment_shader` twice with the same key
`FragmentShader::PaintOnTop(Copy)` from inside a command encoder emits a
second `Low::Shader` instruction and returns a fresh index 1 instead of the
cached index 0 — the cache-miss path never inserts into
`fragment_shaders`, so the cache stays empty and no call ever hits it. -/
theorem fragment_shader_cache_never_populated :
    ({ EncoderState.default with
        is_in_command_encoder := true } : EncoderState).fragment_shader
      (some (FragmentShader.paintOnTop PaintOnTopKind.copy)) [] =
      (Except.ok 0,
        { EncoderState.default with
            is_in_command_encoder := true,
            shaders := 1,
            instructions := [Low.shader
              { name := "", flags := .mk, source_spirv := [] }] }) ∧
    ({ EncoderState.default with
        is_in_command_encoder := true,
        shaders := 1,
        instructions := [Low.shader
          { name := "", flags := .mk, source_spirv := [] }] } :
        EncoderState).fragment_shader
      (some (FragmentShader.paintOnTop PaintOnTopKind.copy)) [] =
      (Except.ok 1,
        { EncoderState.default with
            is_in_command_encoder := true,
            shaders := 2,
            instructions := [Low.shader
                { name := "", flags := .mk, source_spirv := [] },
              Low.shader
                { name := "", flags := .mk, source_spirv := [] }] }) :=
  ⟨rfl, rfl⟩

/-! ## `src/pool.rs`: the image pool -/

/-- `usize::MAX` on the 64-bit targets the pool assumes (`wgpu` buffer
addresses are `u64`). -/
def USIZE_MAX : Nat := 2 ^ 64 - 1

/-- The row-aligned layout returned by `Descriptor::to_aligned`. -/
structure AlignedLayout where
  row_stride : Nat
  height : Nat
deriving DecidableEq, Repr

/-- Modelled from the spec: `Descriptor::to_aligned` is code of this
repository that is not under `src/` (only its caller `Pool::upload` is).
Spec section 4.1: it returns `{ row_stride, height }` with
`row_stride = ceil(width * bytes_per_texel / 256) * 256`, and returns none
iff the aligned size overflows the address space. -/
def Descriptor.to_aligned (d : Descriptor) : Option AlignedLayout :=
  let row_stride := 256 * ((d.layout.width * d.layout.bytes_per_texel + 255) / 256)
  if row_stride * d.layout.height ≤ USIZE_MAX then
    some { row_stride, height := d.layout.height }
  else none

/-- Modelled from the spec: `Descriptor::to_canvas` is code of this
repository that is not under `src/` (only its callers in `src/pool.rs`
are). Per spec section 3 a `Descriptor` is a `(BufferLayout, Texel)` pair
and `declare` stores `LateBound(layout)`, so `to_canvas` yields the
descriptor's byte layout. -/
def Descriptor.to_canvas (d : Descriptor) : BufferLayout :=
  d.layout

/-- `ImageBuffer` from `src/buffer.rs`: a `canvas::Canvas<BufferLayout>`,
i.e. a byte matrix with its layout. -/
structure ImageBuffer where
  layout : BufferLayout
  bytes : List Nat
deriving DecidableEq, Repr

/-- `ImageMeta` from `src/pool.rs`. -/
structure ImageMeta where
  no_read : Bool
  no_write : Bool
deriving DecidableEq, Repr

/-- `ImageMeta::default()`. -/
def ImageMeta.default : ImageMeta where
  no_read := false
  no_write := false

/-- `Gpu` from `crate::run`: the device/queue pair; both external. -/
structure Gpu where
  device : ForeignData
  queue : ForeignData
deriving DecidableEq, Repr

/-- `Device` from `src/pool.rs`. -/
inductive Device where
  | active (gpu : Gpu)
  | inactive
deriving DecidableEq, Repr

/-- `ImageData` from `src/pool.rs`; the `Arc<wgpu::Buffer>` and
`wgpu::Texture` handles are external, the slot-map keys are `Nat`. -/
inductive ImageData where
  | host (buffer : ImageBuffer)
  | gpuBuffer (buffer : ForeignData) (layout : BufferLayout) (gpu : Nat)
  | gpuTexture (texture : ForeignData) (layout : BufferLayout) (gpu : Nat)
  | lateBound (layout : BufferLayout)
deriving DecidableEq, Repr

/-- `ImageData::layout` from `src/pool.rs` lines 534-541. -/
def ImageData.layout : ImageData → BufferLayout
  | .host canvas => canvas.layout
  | .gpuBuffer _ layout _ => layout
  | .gpuTexture _ layout _ => layout
  | .lateBound layout => layout

/-- `Image` from `src/pool.rs`. -/
structure Image where
  meta : ImageMeta
  data : ImageData
  descriptor : Descriptor
deriving DecidableEq, Repr

/-- `Pool` from `src/pool.rs`: the image and device slot-maps, modelled as
association lists keyed by `Nat`. The cached buffer/texture/shader/
pipeline slot-maps of the Rust struct are not touched by any method
embedded here and are omitted. -/
structure Pool where
  items : List (Nat × Image)
  devices : List (Nat × Device)
deriving DecidableEq, Repr

/-- `ImageUploadError` from `src/pool.rs`. -/
inductive ImageUploadError where
  | badImage
  | noData
  | badGpu
  | badDescriptor
  | inactiveGpu
deriving DecidableEq, Repr

/-- Whether the image data already resides on the given GPU: the guards of
the first `match` in `Pool::upload` (`src/pool.rs` lines 276-281). -/
def residesOnGpu : ImageData → Nat → Bool
  | .gpuTexture _ _ gpu, key => gpu == key
  | .gpuBuffer _ _ gpu, key => gpu == key
  | _, _ => false

/-- Whether the image data is a `LateBound` placeholder. -/
def ImageData.isLate : ImageData → Bool
  | .lateBound _ => true
  | _ => false

/-- Outcome of `Pool::upload`: `ok`/`err` carry the pool state at the
`return` site; `panicked` marks the `unreachable!`/`panic!` arms. -/
inductive UploadResult where
  | ok (pool : Pool)
  | err (e : ImageUploadError) (pool : Pool)
  | panicked
deriving DecidableEq, Repr

/-- `Pool::upload` from `src/pool.rs` lines 269-356, translated in source
order: image lookup (`BadImage`), the no-op/`NoData` match, borrowing the
device out of its slot (`BadGpu`/`InactiveGpu`; `mem::replace` writes
`Inactive` into the slot), the aligned-layout check (`BadDescriptor` —
note the source returns here without restoring the device slot), the
buffer creation and host-data replacement (buffer creation and
`copy_host_to_buffer` are external device effects), the gpu-key fixup, and
finally the restore of the device slot. -/
def Pool.upload (p : Pool) (img : Nat) (key : Nat) : UploadResult :=
  match lookupAssoc p.items img with
  | none => .err .badImage p
  | some image =>
    if residesOnGpu image.data key then .ok p
    else match image.data with
      | .lateBound _ => .err .noData p
      | _ =>
        match lookupAssoc p.devices key with
        | none => .err .badGpu p
        | some .inactive =>
          .err .inactiveGpu { p with devices := insertAssoc p.devices key .inactive }
        | some (.active gpu) =>
          let devices₁ := insertAssoc p.devices key .inactive
          match image.descriptor.to_aligned with
          | none => .err .badDescriptor { p with devices := devices₁ }
          | some _aligned =>
            let data₁ := match image.data with
              | .host _ => ImageData.gpuBuffer .mk image.descriptor.to_canvas key
              | d => d
            match data₁ with
            | .gpuTexture t l _ =>
              .ok { items := insertAssoc p.items img
                      { image with data := .gpuTexture t l key },
                    devices := insertAssoc devices₁ key (.active gpu) }
            | .gpuBuffer b l _ =>
              .ok { items := insertAssoc p.items img
                      { image with data := .gpuBuffer b l key },
                    devices := insertAssoc devices₁ key (.active gpu) }
            | _ => .panicked

/-- Claim C5: given that the key names an image, `upload` (i) returns `Ok`
without modifying anything when the image already resides on that GPU as a
buffer or texture, (ii) returns `NoData` for a `LateBound` entry, (iii)
returns `BadGpu` when the device key names no device, (iv) returns
`InactiveGpu` when that device slot is currently `Inactive`, and (v)
returns `BadDescriptor` when the 256-byte-aligned layout of the descriptor
overflows the address space — the clauses applying in this source order. -/
theorem upload_contract (p : Pool) (img key : Nat) (image : Image)
    (himg : lookupAssoc p.items img = some image) :
    (residesOnGpu image.data key = true → p.upload img key = .ok p) ∧
    (residesOnGpu image.data key = false → image.data.isLate = true →
      p.upload img key = .err .noData p) ∧
    (residesOnGpu image.data key = false → image.data.isLate = false →
      lookupAssoc p.devices key = none →
      p.upload img key = .err .badGpu p) ∧
    (residesOnGpu image.data key = false → image.data.isLate = false →
      lookupAssoc p.devices key = some .inactive →
      p.upload img key = .err .inactiveGpu p) ∧
    (∀ gpu, residesOnGpu image.data key = false → image.data.isLate = false →
      lookupAssoc p.devices key = some (.active gpu) →
      image.descriptor.to_aligned = none →
      p.upload img key =
        .err .badDescriptor
          { p with devices := insertAssoc p.devices key .inactive }) := by
  refine ⟨?_, ?_, ?_, ?_, ?_⟩
  · intro hres
    cases hdata : image.data <;>
      simp_all [Pool.upload, residesOnGpu, hdata]
  · intro hres hlate
    cases hdata : image.data <;>
      simp_all [Pool.upload, residesOnGpu, ImageData.isLate]
  · intro hres hlate hdev
    cases hdata : image.data <;>
      simp_all [Pool.upload, residesOnGpu, ImageData.isLate]
  · intro hres hlate hdev
    have hfix : insertAssoc p.devices key Device.inactive = p.devices :=
      insertAssoc_self p.devices key Device.inactive hdev
    cases hdata : image.data <;>
      simp_all [Pool.upload, residesOnGpu, ImageData.isLate]
  · intro gpu hres hlate hdev halign
    cases hdata : image.data <;>
      simp_all [Pool.upload, residesOnGpu, ImageData.isLate]

/-- Witness for C5's theorem: a one-image pool whose entry is `LateBound`,
so `upload` reports `NoData`. -/
theorem upload_contract_witness :
    (Pool.upload
        { items := [(0, { meta := ImageMeta.default,
                          data := .lateBound sampleDescriptor.layout,
                          descriptor := sampleDescriptor })],
          devices := [] } 0 5) =
      .err .noData
        { items := [(0, { meta := ImageMeta.default,
                          data := .lateBound sampleDescriptor.layout,
                          descriptor := sampleDescriptor })],
          devices := [] } :=
  (upload_contract
    { items := [(0, { meta := ImageMeta.default,
                      data := .lateBound sampleDescriptor.layout,
                      descriptor := sampleDescriptor })],
      devices := [] } 0 5
    { meta := ImageMeta.default,
      data := .lateBound sampleDescriptor.layout,
      descriptor := sampleDescriptor } rfl).2.1 rfl rfl

/-- A layout whose byte length `1 * 1 * (2^64 - 128)` fits `usize` but
whose 256-byte-aligned row stride `2^64` overflows it, so
`Descriptor::to_aligned` returns none. -/
def overflowLayout : BufferLayout where
  width := 1
  height := 1
  bytes_per_texel := 2 ^ 64 - 128

/-- A host image with the overflowing layout. -/
def overflowImage : Image where
  meta := ImageMeta.default
  data := .host { layout := overflowLayout, bytes := [] }
  descriptor := { layout := overflowLayout, texel := sampleDescriptor.texel }

/-- A pool holding the overflowing host image and one active device in
slot 7. -/
def leakPool : Pool where
  items := [(0, overflowImage)]
  devices := [(7, .active { device := .mk, queue := .mk })]

/-- Claim C6 (code bug): on the `BadDescriptor` error path `Pool::upload`
returns while the device slot it borrowed from is still `Inactive` — the
borrowed `Gpu` is dropped and never swapped back, so the slot is not
restored to `Active` before the return. -/
theorem upload_leaks_device_on_bad_descriptor :
    leakPool.upload 0 7 =
      .err .badDescriptor { leakPool with devices := [(7, Device.inactive)] } ∧
    lookupAssoc [(7, Device.inactive)] 7 = some Device.inactive := by
  constructor
  · rfl
  · rfl

/-! ## `src/program.rs`: the launcher -/

/-- `Target` from `crate::command`, reconstructed from the exhaustive
match in `Launcher::launch` (`src/program.rs` lines 637-656): `Discard`
or `Load` of a planner `Texture` index. -/
inductive Target where
  | discard (texture : Nat)
  | load (texture : Nat)
deriving DecidableEq, Repr

/-- `Function` from `src/program.rs` lines 32-49; the `Rectangle` regions
come from `crate::command` and are not inspected by the embedded code. -/
inductive Function where
  | paintOnTop (lower_region : ForeignData × ForeignData)
      (upper_region : ForeignData) (paint_on_top : PaintOnTopKind)
deriving DecidableEq, Repr

/-- Modelled from the spec: the `High` op enum lives in `crate::command`,
which is not under `src/`. Its variants and the payloads inspected by
`src/program.rs` are reconstructed from the exhaustive matches in
`Launcher::bind` and `Launcher::launch` (`Done`, `Input(Register,
descriptor)`, `Output(register)`, `Construct { dst, op }`,
`Paint { texture, dst, fn_ }`) and from spec section 3's op list; payloads
the embedded code never reads are `ForeignData`. -/
inductive High where
  | done (register : Nat)
  | input (register : Nat) (descriptor : Descriptor)
  | output (register : Nat)
  | construct (dst : Nat) (op : ForeignData)
  | paint (texture : Nat) (dst : Target) (function : Function)
deriving DecidableEq, Repr

/-- The `binds` vector built by `Program::launch` (`src/program.rs` lines
542-546): one `ImageData::LateBound(descriptor.layout)` per planned
texture. -/
def Program.launchBinds (texture : List Descriptor) : List ImageData :=
  texture.map fun d => ImageData.lateBound d.layout

/-- Result of the input-bound check loop at the start of
`Launcher::launch` (`src/program.rs` lines 590-596): `failed` when some
`Input` register's bind slot still holds `LateBound` data (the loop
returns `Err(LaunchError)`), `panicked` when the index expression
`self.binds[texture]` is out of bounds. -/
inductive LaunchCheck where
  | passed
  | failed
  | panicked
deriving DecidableEq, Repr

/-- The check loop itself, in program order. -/
def checkBindsFor (binds : List ImageData) : List High → LaunchCheck
  | [] => .passed
  | .input t _ :: rest =>
    match binds[t]? with
    | none => .panicked
    | some (.lateBound _) => .failed
    | some _ => checkBindsFor binds rest
  | _ :: rest => checkBindsFor binds rest

/-- Outcome of `Launcher::launch`. -/
inductive LaunchOutcome where
  | ok (execution : ForeignData)
  | err
  | panicked
deriving DecidableEq, Repr

/-- `Launcher::launch` from `src/program.rs` lines 586-692: the input
check runs before the device request is polled and before any lowering;
everything after a passed check (device acquisition, encoding of every
op, the `Execution` construction) is abstracted into the `rest`
outcome, because the claims settled here only concern the checked
failure. -/
def Launcher.launch (ops : List High) (binds : List ImageData)
    (rest : LaunchOutcome) : LaunchOutcome :=
  match checkBindsFor binds ops with
  | .panicked => .panicked
  | .failed => .err
  | .passed => rest

/-- Every `Input` op's register indexes into the binds vector: true of
every compiled program, whose binds vector has one entry per planned
texture and whose registers were allocated in sequence. -/
def allInputsInRange (ops : List High) (n : Nat) : Bool :=
  ops.all fun op =>
    match op with
    | .input t _ => decide (t < n)
    | _ => true

theorem checkBindsFor_failed (ops : List High) (binds : List ImageData)
    (t : Nat) (d : Descriptor) (l : BufferLayout)
    (hwf : allInputsInRange ops binds.length = true)
    (hmem : High.input t d ∈ ops)
    (hlb : binds[t]? = some (ImageData.lateBound l)) :
    checkBindsFor binds ops = .failed := by
  induction ops with
  | nil => simp at hmem
  | cons op rest ih =>
    have hwf' : allInputsInRange rest binds.length = true := by
      simp [allInputsInRange, List.all_cons] at hwf ⊢
      exact hwf.2
    cases op with
    | input t' d' =>
      have ht' : t' < binds.length := by
        simp [allInputsInRange, List.all_cons] at hwf
        exact hwf.1
      obtain ⟨b, hb⟩ : ∃ b, binds[t']? = some b :=
        ⟨binds[t'], List.getElem?_eq_getElem ht'⟩
      cases b with
      | lateBound l' => simp [checkBindsFor, hb]
      | host buf =>
        rcases List.mem_cons.mp hmem with heq | hmem'
        · obtain ⟨rfl, rfl⟩ : t = t' ∧ d = d' := by
            injection heq with h1 h2; exact ⟨h1, h2⟩
          rw [hlb] at hb; cases hb
        · simp only [checkBindsFor, hb]
          exact ih hwf' hmem'
      | gpuBuffer a b' c =>
        rcases List.mem_cons.mp hmem with heq | hmem'
        · obtain ⟨rfl, rfl⟩ : t = t' ∧ d = d' := by
            injection heq with h1 h2; exact ⟨h1, h2⟩
          rw [hlb] at hb; cases hb
        · simp only [checkBindsFor, hb]
          exact ih hwf' hmem'
      | gpuTexture a b' c =>
        rcases List.mem_cons.mp hmem with heq | hmem'
        · obtain ⟨rfl, rfl⟩ : t = t' ∧ d = d' := by
            injection heq with h1 h2; exact ⟨h1, h2⟩
          rw [hlb] at hb; cases hb
        · simp only [checkBindsFor, hb]
          exact ih hwf' hmem'
    | done r =>
      have hmem' : High.input t d ∈ rest := by
        rcases List.mem_cons.mp hmem with heq | hmem'
        · cases heq
        · exact hmem'
      simpa only [checkBindsFor] using ih hwf' hmem'
    | output r =>
      have hmem' : High.input t d ∈ rest := by
        rcases List.mem_cons.mp hmem with heq | hmem'
        · cases heq
        · exact hmem'
      simpa only [checkBindsFor] using ih hwf' hmem'
    | construct a b =>
      have hmem' : High.input t d ∈ rest := by
        rcases List.mem_cons.mp hmem with heq | hmem'
        · cases heq
        · exact hmem'
      simpa only [checkBindsFor] using ih hwf' hmem'
    | paint a b c =>
      have hmem' : High.input t d ∈ rest := by
        rcases List.mem_cons.mp hmem with heq | hmem'
        · cases heq
        · exact hmem'
      simpa only [checkBindsFor] using ih hwf' hmem'

/-- Claim C7: for a program whose `Input` registers all index into the
binds vector (as every compiled program's do), if some `Input` register's
bind slot still holds `LateBound` data, then `Launcher::launch` returns a
`LaunchError` — regardless of what the device request and the lowering
(`rest`) would have produced, so no `Execution` is ever built. -/
theorem launch_errors_on_unbound_input (ops : List High)
    (binds : List ImageData) (t : Nat) (d : Descriptor) (l : BufferLayout)
    (hwf : allInputsInRange ops binds.length = true)
    (hmem : High.input t d ∈ ops)
    (hlb : binds[t]? = some (ImageData.lateBound l)) :
    ∀ rest, Launcher.launch ops binds rest = .err := by
  intro rest
  simp [Launcher.launch, checkBindsFor_failed ops binds t d l hwf hmem hlb]

/-- Witness for C7's theorem: one `Input` op whose slot was never bound. -/
theorem launch_errors_on_unbound_input_witness :
    Launcher.launch [High.input 0 sampleDescriptor]
      [ImageData.lateBound sampleDescriptor.layout] (LaunchOutcome.ok .mk) =
      .err :=
  launch_errors_on_unbound_input [High.input 0 sampleDescriptor]
    [ImageData.lateBound sampleDescriptor.layout] 0 sampleDescriptor
    sampleDescriptor.layout (by decide) (by decide) rfl (LaunchOutcome.ok .mk)

/-- Outcome of `Launcher::bind`: `ok` carries the new pool and binds
vector after the data swap; `panicked` marks the `assert_eq!` in
`PoolImageMut::swap` (or an out-of-bounds `self.binds[texture]`). -/
inductive BindOutcome where
  | ok (pool : Pool) (binds : List ImageData)
  | err
  | panicked
deriving DecidableEq, Repr

/-- `Launcher::bind` from `src/program.rs` lines 562-583 combined with
`PoolImageMut::swap` from `src/pool.rs` lines 733-741, in source order:
pool entry lookup, the `High::Input` match on the op at the register, the
plan-assignment lookup, then `entry.swap(&mut self.binds[texture])` whose
`assert_eq!` on the two byte layouts panics on mismatch and which
otherwise exchanges the pool entry's data with the bind slot. -/
def Launcher.bind (pool : Pool) (ops : List High)
    (by_register : List ImageBufferAssignment) (binds : List ImageData)
    (reg img : Nat) : BindOutcome :=
  match lookupAssoc pool.items img with
  | none => .err
  | some image =>
    match ops[reg]? with
    | some (.input _ _) =>
      match by_register[reg]? with
      | none => .err
      | some assigned =>
        match binds[assigned.texture]? with
        | none => .panicked
        | some bound =>
          if image.data.layout = bound.layout then
            .ok { pool with
                items := insertAssoc pool.items img { image with data := bound } }
              (binds.set assigned.texture image.data)
          else .panicked
    | _ => .err

/-- Whether the op at the register is an `Input`. -/
def isInputAt (ops : List High) (reg : Nat) : Bool :=
  match ops[reg]? with
  | some (.input _ _) => true
  | _ => false

/-- Claim C10: (i) when `bind` is called with a valid `Input` register and
an existing pool image whose byte layout differs from the layout declared
for that register (the bind slots hold `LateBound(declared layout)` as
built by `Program::launch`), the call panics via the layout-equality
assertion inside the data swap rather than returning a `LaunchError`;
(ii) `bind` returns `Err` exactly when the pool key names no image, the
register's op is not an `Input`, or the register has no plan
assignment. -/
theorem bind_panics_on_layout_mismatch :
    (∀ (pool : Pool) (ops : List High) (texture : List Descriptor)
        (by_register : List ImageBufferAssignment) (reg img : Nat)
        (image : Image) (assigned : ImageBufferAssignment) (desc : Descriptor),
      lookupAssoc pool.items img = some image →
      isInputAt ops reg = true →
      by_register[reg]? = some assigned →
      texture[assigned.texture]? = some desc →
      image.data.layout ≠ desc.layout →
      Launcher.bind pool ops by_register (Program.launchBinds texture) reg img =
        .panicked) ∧
    (∀ (pool : Pool) (ops : List High)
        (by_register : List ImageBufferAssignment) (binds : List ImageData)
        (reg img : Nat),
      Launcher.bind pool ops by_register binds reg img = .err ↔
        (lookupAssoc pool.items img = none ∨ isInputAt ops reg = false ∨
          by_register[reg]? = none)) := by
  constructor
  · intro pool ops texture by_register reg img image assigned desc
      himg hinput hreg htex hne
    have hop : ∃ r d, ops[reg]? = some (High.input r d) := by
      unfold isInputAt at hinput
      cases hop : ops[reg]? with
      | none => rw [hop] at hinput; cases hinput
      | some op =>
        cases op <;> rw [hop] at hinput <;>
          first
            | exact ⟨_, _, rfl⟩
            | cases hinput
    obtain ⟨r, d, hop⟩ := hop
    have hbind : (Program.launchBinds texture)[assigned.texture]? =
        some (ImageData.lateBound desc.layout) := by
      simp [Program.launchBinds, List.getElem?_map, htex]
    simp only [Launcher.bind, himg, hop, hreg, hbind]
    rw [show (ImageData.lateBound desc.layout).layout = desc.layout from rfl]
    rw [if_neg hne]
  · intro pool ops by_register binds reg img
    cases himg : lookupAssoc pool.items img with
    | none => simp [Launcher.bind, himg]
    | some image =>
      cases hop : ops[reg]? with
      | none => simp [Launcher.bind, isInputAt, himg, hop]
      | some op =>
        cases op with
        | input r d =>
          cases hreg : by_register[reg]? with
          | none => simp [Launcher.bind, isInputAt, himg, hop, hreg]
          | some assigned =>
            cases hb : binds[assigned.texture]? with
            | none => simp [Launcher.bind, isInputAt, himg, hop, hreg, hb]
            | some bound =>
              by_cases hl : image.data.layout = bound.layout <;>
                simp [Launcher.bind, isInputAt, himg, hop, hreg, hb, hl]
        | done r => simp [Launcher.bind, isInputAt, himg, hop]
        | output r => simp [Launcher.bind, isInputAt, himg, hop]
        | construct a b => simp [Launcher.bind, isInputAt, himg, hop]
        | paint a b c => simp [Launcher.bind, isInputAt, himg, hop]

/-- A host image whose 1-by-1 single-byte layout differs from
`sampleDescriptor`'s declared layout. -/
def mismatchImage : Image where
  meta := ImageMeta.default
  data := .host { layout := { width := 1, height := 1, bytes_per_texel := 1 },
                  bytes := [0] }
  descriptor := { layout := { width := 1, height := 1, bytes_per_texel := 1 },
                  texel := sampleDescriptor.texel }

/-- Witness for C10's theorem: binding the mismatched pool image to an
`Input` register declared with `sampleDescriptor`'s layout panics. -/
theorem bind_panics_on_layout_mismatch_witness :
    Launcher.bind { items := [(3, mismatchImage)], devices := [] }
      [High.input 0 sampleDescriptor] [⟨0, 0⟩]
      (Program.launchBinds [sampleDescriptor]) 0 3 = .panicked :=
  bind_panics_on_layout_mismatch.1
    { items := [(3, mismatchImage)], devices := [] }
    [High.input 0 sampleDescriptor] [sampleDescriptor] [⟨0, 0⟩] 0 3
    mismatchImage ⟨0, 0⟩ sampleDescriptor rfl rfl rfl rfl (by decide)

end StealthPaint
